import Mathlib

/-!
Shallow embedding of the chart_classification repository
(src/processing.py, src/pipeline/{storage,dataset,construction}.py)
and verification of its specification claims.

External collaborators (PIL image decoding, the conversion/transform
registries from `conversions.py`/`transforms.py`, and the class
vocabulary from `store.py`) are parameters of the model, as the spec
describes them (string key to callable / label key to integer id).
Python exceptions are modelled with `Option`: `none` means the call
raised; a caught exception is handled inside the definition, exactly
where the source catches it.

Layout: all definitions first, then all theorems.
-/

namespace Chart

/-! Decimal rendering of natural numbers, modelling the Python
f-string `f"dataset-{i}"`.  `natStrAux` peels decimal digits with
explicit fuel (`n` itself is enough fuel, since `n / 10 < n`). -/

/-- Digit characters, as produced by decimal rendering. -/
def digitChar (d : Nat) : Char :=
  Char.ofNat (48 + d)

/-- Numeric value of a digit character (inverse of `digitChar` on 0..9). -/
def digitVal (c : Char) : Nat :=
  c.toNat - 48

/-- Big-endian decimal digit list of `n`, with fuel. -/
def natStrAux : Nat → Nat → List Char
  | _, 0 => []
  | 0, _ => []
  | fuel + 1, n => natStrAux fuel (n / 10) ++ [digitChar (n % 10)]

/-- Decimal string of a natural number, as Python renders it. -/
def natStr (n : Nat) : String :=
  if n = 0 then "0" else ⟨natStrAux n n⟩

/-- Parse a big-endian digit-character list back to a number. -/
def charsVal (l : List Char) : Nat :=
  l.foldl (fun acc c => acc * 10 + digitVal c) 0

/-- Directory name of dataset number `i`, as in `f"dataset-{i}"`. -/
def dsName (i : Nat) : String :=
  "dataset-" ++ natStr i

/-! Fresh dataset numbering.  Both `new_dataset` functions run
`next(i for i in itertools.count() if f"dataset-{i}" not in datasets)`:
the smallest non-negative `i` whose name is not in the directory
listing.  `findFresh` is that search with explicit fuel;
`ds.length + 1` fuel always suffices (pigeonhole, names are distinct). -/

/-- Linear search for the first index whose dataset name is unused. -/
def findFresh (ds : List String) : Nat → Nat → Nat
  | i, 0 => i
  | i, fuel + 1 => if dsName i ∈ ds then findFresh ds (i + 1) fuel else i

/-- Smallest non-negative integer `i` with `dsName i` not in the listing. -/
def freshIndex (ds : List String) : Nat :=
  findFresh ds 0 (ds.length + 1)

namespace Processing

/-! Model of `processing.process_map` (src/processing.py).  The
`multiprocessing.Pool` executes the tasks in some physical order that
the caller does not control (`sched`, a permutation of the input
indices) and gathers the results back by input index — its documented
contract.  `packed=True` corresponds to `starmap`, i.e. the function
applied to unpacked argument tuples, which typed Lean renders by
uncurrying with `star`. -/

/-- Worker-side execution: each scheduled index computes its result,
tagged with the index it came from. -/
def poolRun (f : α → β) (args : List α) (sched : List Nat) :
    List (Nat × β) :=
  sched.filterMap (fun i => (args[i]?).map (fun a => (i, f a)))

/-- Gather the tagged results back in input-index order. -/
def gather (n : Nat) (rs : List (Nat × β)) : List β :=
  (List.range n).filterMap
    (fun i => (rs.find? (fun p => p.1 == i)).map Prod.snd)

/-- Parallel map, single-argument mode (`packed=False`). -/
def process_map (f : α → β) (args : List α) (sched : List Nat) : List β :=
  gather args.length (poolRun f args sched)

/-- Tuple unpacking of a two-argument function, as `starmap` does. -/
def star (f : γ → δ → β) : γ × δ → β :=
  fun p => f p.1 p.2

/-- Parallel map, packed mode (`packed=True`, i.e. `starmap`). -/
def process_map_packed (f : γ → δ → β) (args : List (γ × δ))
    (sched : List Nat) : List β :=
  process_map (star f) args sched

/-- Single-threaded sequential reference map, as the spec phrases it. -/
def seq_map (f : α → β) (args : List α) : List β :=
  args.map f

end Processing

/-! Data model of the store and dataset directories.  CSV ledgers keep
the name of their index column (pandas `to_csv` writes an unnamed
index unless `index_label` is passed; `read_csv(index_col="Index")`
raises unless a column of that name exists).  The content of a
`process.json` file is the sequence of JSON records the file holds:
`json.load` succeeds only when it holds exactly one. -/

/-- Process-metadata record, the JSON object stored in process.json.
`bundled` distinguishes an absent "Bundled" key (`none`) from a JSON
null (`some none`) and a boolean (`some (some b)`). -/
structure ProcRec where
  conversions : List String
  transforms : List String
  bundled : Option (Option Bool)
deriving Repr, DecidableEq

/-- Row of a dataset ledger log.csv: file path and class label key. -/
structure LedgerRow where
  file : String
  cls : String
deriving Repr, DecidableEq

/-- Dataset ledger file log.csv. -/
structure Ledger where
  indexLabel : Option String
  rows : List LedgerRow
deriving Repr, DecidableEq

/-- Row of the store ledger data/log.csv: file, class label key, and
one boolean conversion flag per conversion key (the `r[c]` lookup). -/
structure StoreRow where
  file : String
  cls : String
  flags : String → Bool

/-- Store ledger data/log.csv with its index column name and the
conversion flag column names. -/
structure StoreLedger where
  indexLabel : Option String
  flagCols : List String
  rows : List StoreRow

/-- On-disk state of one dataset directory data/datasets/dataset-<i>.
Each `none` field means the file is absent. -/
structure DatasetDir (Image : Type) where
  log : Option Ledger
  proc : Option (List ProcRec)
  x : Option (List Image)
  y : Option (List Int)
deriving Repr, DecidableEq

/-- Process-wide store state: the directory names under data/datasets
and the store ledger data/log.csv. -/
structure Store where
  datasets : List String
  log : Option StoreLedger

/-- Existence of the three directories init_data_store touches. -/
structure RootFs where
  data : Bool
  images : Bool
  datasets : Bool
deriving Repr, DecidableEq

/-- Result of json.load on a process.json file: succeeds only when the
file exists and holds exactly one JSON record. -/
def parseProc : Option (List ProcRec) → Option ProcRec
  | some [r] => some r
  | _ => none

/-- Scan of a path's characters keeping the current segment, reset at
every slash; ends holding the part after the last slash. -/
def basenameChars : List Char → List Char → List Char
  | cur, [] => cur.reverse
  | cur, c :: rest =>
    if c = '/' then basenameChars [] rest
    else basenameChars (c :: cur) rest

/-- Behaviour of os.path.basename: the part after the last slash. -/
def basename (s : String) : String :=
  ⟨basenameChars [] s.data⟩

/-- Path of dataset number `i`. -/
def dsDir (i : Nat) : String :=
  "data/datasets/" ++ dsName i

/-- Destination of the copy into the dataset images directory. -/
def imgPath (dataset file : String) : String :=
  dataset ++ "/images/" ++ basename file

/-- Ledger as written with index_label="Index". -/
def idxLedger (rows : List LedgerRow) : Ledger :=
  { indexLabel := some "Index", rows := rows }

namespace Storage

/-- Model of storage.init_data_store: mkdir data, data/images and
data/datasets inside one try block whose FileExistsError handler does
nothing, so if data already exists the remaining mkdirs are skipped. -/
def init_data_store (fs : RootFs) : RootFs :=
  if fs.data then fs
  else
    let fs1 : RootFs := { fs with data := true }
    if fs1.images then fs1
    else
      let fs2 : RootFs := { fs1 with images := true }
      if fs2.datasets then fs2
      else { fs2 with datasets := true }

/-- Model of storage.init_label_store: overwrite data/log.csv with an
empty table with columns File, Class and the conversion keys; the
pandas to_csv default leaves the index column unnamed. -/
def init_label_store (convKeys : List String) (st : Store) : Store :=
  { st with log := some { indexLabel := none, flagCols := convKeys, rows := [] } }

/-- Model of storage.new_dataset: fresh numbered directory, empty
ledger written without index_label (unnamed index column), and a
process.json record that has no Bundled key. -/
def new_dataset (Image : Type) (st : Store) :
    String × Store × DatasetDir Image :=
  let i := freshIndex st.datasets
  (dsDir i,
   { st with datasets := st.datasets ++ [dsName i] },
   { log := some { indexLabel := none, rows := [] },
     proc := some [{ conversions := [], transforms := [], bundled := none }],
     x := none, y := none })

end Storage

namespace Dataset

/-- Chained application `img = CONVERSIONS[c](img)` along a key list,
each conversion taking the previous step's output path; an unknown
key is a KeyError (`none`). -/
def applyConvs (CONVERSIONS : String → Option (String → String)) :
    String → List String → Option String
  | p, [] => some p
  | p, c :: cs =>
    match CONVERSIONS c with
    | none => none
    | some g => applyConvs CONVERSIONS (g p) cs

/-- Reference chain in the spec's words: the conversions applied in
the given order, each taking the previous step's output path (total
form, meaningful when every key resolves). -/
def chainConvs (CONVERSIONS : String → Option (String → String))
    (p : String) (cs : List String) : String :=
  cs.foldl (fun q c => ((CONVERSIONS c).getD id) q) p

/-- Fan-out of `_copy_and_apply` over the resolved entries
(file, class, conversions to apply), with results gathered in input
order per the Parallel Map contract; the file copy into the dataset
images directory keeps the basename.  Produces the rows
(final path, class) recorded in the new ledger. -/
def buildRows (CONVERSIONS : String → Option (String → String))
    (dataset : String) :
    List (String × String × List String) → Option (List LedgerRow)
  | [] => some []
  | e :: es =>
    match applyConvs CONVERSIONS (imgPath dataset e.1) e.2.2 with
    | none => none
    | some p =>
      match buildRows CONVERSIONS dataset es with
      | none => none
      | some rs => some ({ file := p, cls := e.2.1 } :: rs)

/-- Model of dataset.new_dataset.  With from_store the store ledger is
read with index_col="Index" (raising unless the index column carries
that name) and its rows are masked by membership of File in
`filenames`, keeping store order; each kept row drops the conversions
already flagged true.  Without from_store every filename gets the
default class and the whole conversion list.  A raise (`none`) leaves
whatever directories were already created, which the model does not
track (the spec notes there is no rollback). -/
def new_dataset (Image : Type)
    (CONVERSIONS : String → Option (String → String))
    (DEFAULT_CLASS : String) (st : Store)
    (filenames conversions : List String) (from_store : Bool) :
    Option (String × Store × DatasetDir Image) :=
  let i := freshIndex st.datasets
  let entries? : Option (List (String × String × List String)) :=
    if from_store then
      match st.log with
      | none => none
      | some L =>
        if L.indexLabel = some "Index" then
          some ((L.rows.filter (fun r => decide (r.file ∈ filenames))).map
            (fun r => (r.file, r.cls,
              conversions.filter (fun c => !(r.flags c)))))
        else none
    else
      some (filenames.map (fun f => (f, DEFAULT_CLASS, conversions)))
  match entries? with
  | none => none
  | some entries =>
    match buildRows CONVERSIONS (dsDir i) entries with
    | none => none
    | some newRows =>
      some (dsDir i,
        { st with datasets := st.datasets ++ [dsName i] },
        { log := some { indexLabel := some "Index", rows := newRows },
          proc := some [{ conversions := conversions, transforms := [],
                          bundled := some none }],
          x := none, y := none })

section Materialize

variable {Image : Type}

/-- Fan-out of `_load_image_array` over the ledger files; a missing
file is a FileNotFoundError (`none`). -/
def loadAll (load : String → Option Image) :
    List String → Option (List Image)
  | [] => some []
  | f :: fs =>
    match load f with
    | none => none
    | some img =>
      match loadAll load fs with
      | none => none
      | some imgs => some (img :: imgs)

/-- The transform loop: for each named transform in order, map
`TRANSFORMS[f]` over the whole collection; an unknown key is a
KeyError (`none`). -/
def applyTransforms (TRANSFORMS : String → Option (Image → Image)) :
    List String → List Image → Option (List Image)
  | [], images => some images
  | t :: ts, images =>
    match TRANSFORMS t with
    | none => none
    | some g => applyTransforms TRANSFORMS ts (images.map g)

/-- Model of dataset._make_imageset.  FileNotFoundError from the
ledger read or the image loads is caught and reported as false with
no state touched; everything later (unknown transform key, missing or
malformed process.json) raises.  On success process.json is rewritten
(truncating w+ open) with the new transform list and X.npy saved. -/
def make_imageset (load : String → Option Image)
    (TRANSFORMS : String → Option (Image → Image))
    (ds : DatasetDir Image) (transforms : List String) :
    Option (DatasetDir Image × Bool) :=
  match ds.log with
  | none => some (ds, false)
  | some L =>
    match loadAll load (L.rows.map (·.file)) with
    | none => some (ds, false)
    | some images =>
      match applyTransforms TRANSFORMS transforms images with
      | none => none
      | some images2 =>
        match parseProc ds.proc with
        | none => none
        | some r =>
          some ({ ds with
                    proc := some [{ r with transforms := transforms }],
                    x := some images2 }, true)

/-- Model of dataset._make_labelset: read the ledger (uncaught raise
when absent), resolve every class key through CLASSES, bundle if
asked (Python int(bool(k)): nonzero to 1, zero stays 0), record the
bundling flag in process.json and save Y.npy. -/
def make_labelset (CLASSES : String → Int)
    (ds : DatasetDir Image) (bundled : Bool) :
    Option (DatasetDir Image × Bool) :=
  match ds.log with
  | none => none
  | some L =>
    let classes := L.rows.map (fun r =>
      if bundled then (if CLASSES r.cls = 0 then 0 else 1)
      else CLASSES r.cls)
    match parseProc ds.proc with
    | none => none
    | some r =>
      some ({ ds with
                proc := some [{ r with bundled := some (some bundled) }],
                y := some classes }, true)

/-- Model of dataset.make_data: short-circuit conjunction of the two
steps, so the label step is not invoked when the image step reports
failure. -/
def make_data (load : String → Option Image)
    (TRANSFORMS : String → Option (Image → Image))
    (CLASSES : String → Int) (ds : DatasetDir Image)
    (transforms : List String) (bundled : Bool) :
    Option (DatasetDir Image × Bool) :=
  match make_imageset load TRANSFORMS ds transforms with
  | none => none
  | some (ds1, false) => some (ds1, false)
  | some (ds1, true) => make_labelset CLASSES ds1 bundled

/-- Model of dataset.get_process: plain json.load of process.json. -/
def get_process (ds : DatasetDir Image) : Option ProcRec :=
  parseProc ds.proc

end Materialize

end Dataset

namespace Construction

variable {Image : Type}

/-- Model of construction.make_imageset.  Same shape as
dataset._make_imageset except that ledger file names are prefixed with
the dataset images directory, and the metadata update opens
process.json in r+ mode: json.load consumes the whole file, then
json.dump writes at the end-of-file position, so the updated record is
appended after the existing text instead of replacing it. -/
def make_imageset (load : String → Option Image)
    (TRANSFORMS : String → Option (Image → Image))
    (dataset : String) (ds : DatasetDir Image)
    (transforms : List String) :
    Option (DatasetDir Image × Bool) :=
  match ds.log with
  | none => some (ds, false)
  | some L =>
    match Dataset.loadAll load
        (L.rows.map (fun r => dataset ++ "/images/" ++ r.file)) with
    | none => some (ds, false)
    | some images =>
      match Dataset.applyTransforms TRANSFORMS transforms images with
      | none => none
      | some images2 =>
        match ds.proc with
        | none => none
        | some content =>
          match parseProc (some content) with
          | none => none
          | some r =>
            some ({ ds with
                      proc := some (content ++
                        [{ r with transforms := transforms }]),
                      x := some images2 }, true)

end Construction

/-! Concrete fixtures used by the witness theorems. -/

/-- Example conversion registry: a png conversion renaming the path
and a grayscale conversion keeping it. -/
def convEx : String → Option (String → String) :=
  fun c =>
    if c = "png" then some (fun p => p ++ ".png")
    else if c = "gray" then some (fun p => p) else none

/-- Example class vocabulary giving the spec's bundling example ids. -/
def clsEx : String → Int :=
  fun c =>
    if c = "c2" then 2 else if c = "c3" then 3 else 0

/-- Example image loader: every file decodes to 7. -/
def loadEx : String → Option Nat :=
  fun _ => some 7

/-- Example transform registry: one known transform adding 1. -/
def transEx : String → Option (Nat → Nat) :=
  fun t => if t = "scale" then some (fun n => n + 1) else none

/-- Example store ledger with a named Index column and two rows, one
with its png flag already set. -/
def storeLedgerEx : StoreLedger :=
  { indexLabel := some "Index", flagCols := ["png", "gray"],
    rows := [{ file := "a.jpg", cls := "line", flags := fun c => c = "png" },
             { file := "b.jpg", cls := "c2", flags := fun _ => false }] }

/-- Example store state. -/
def storeEx : Store :=
  { datasets := ["dataset-0"], log := some storeLedgerEx }

/-- Example dataset directory with one row and clean metadata. -/
def dsDirEx : DatasetDir Nat :=
  { log := some { indexLabel := some "Index",
                  rows := [{ file := "a.png", cls := "line" }] },
    proc := some [{ conversions := ["png"], transforms := [],
                    bundled := some none }],
    x := none, y := none }

/-- Example dataset directory whose ledger file is absent. -/
def dsNoLogEx : DatasetDir Nat :=
  { log := none,
    proc := some [{ conversions := [], transforms := [],
                    bundled := some none }],
    x := none, y := some [5] }

/-- Example ledger carrying the spec's bundling example classes in
row order. -/
def ledgerLabelEx : Ledger :=
  { indexLabel := some "Index",
    rows := [{ file := "f0", cls := "c0" },
             { file := "f1", cls := "c1" },
             { file := "f2", cls := "c2" },
             { file := "f3", cls := "c3" },
             { file := "f4", cls := "c4" }] }

/-- Example dataset directory holding that ledger and clean metadata. -/
def dsLabelEx : DatasetDir Nat :=
  { log := some ledgerLabelEx,
    proc := some [{ conversions := [], transforms := [],
                    bundled := some none }],
    x := none, y := none }

/-! General lemmas. -/

theorem charsVal_append_digit (l : List Char) (c : Char) :
    charsVal (l ++ [c]) = charsVal l * 10 + digitVal c := by
  simp [charsVal, List.foldl_append]

theorem digitVal_digitChar (d : Nat) (h : d < 10) :
    digitVal (digitChar d) = d := by
  interval_cases d <;> rfl

theorem charsVal_natStrAux : ∀ fuel n, n ≤ fuel →
    charsVal (natStrAux fuel n) = n := by
  intro fuel
  induction fuel with
  | zero =>
    intro n hn
    interval_cases n
    rfl
  | succ fuel ih =>
    intro n hn
    cases n with
    | zero => rfl
    | succ m =>
      rw [show natStrAux (fuel + 1) (m + 1) =
            natStrAux fuel ((m + 1) / 10) ++ [digitChar ((m + 1) % 10)] from rfl]
      rw [charsVal_append_digit, ih ((m + 1) / 10) (by omega),
          digitVal_digitChar _ (Nat.mod_lt _ (by norm_num))]
      omega

theorem charsVal_natStr (n : Nat) : charsVal (natStr n).data = n := by
  by_cases h : n = 0
  · subst h
    rfl
  · have : (natStr n).data = natStrAux n n := by
      simp [natStr, h]
    rw [this, charsVal_natStrAux n n le_rfl]

theorem natStr_injective : Function.Injective natStr := by
  intro a b hab
  have h := charsVal_natStr a
  rw [hab, charsVal_natStr b] at h
  omega

theorem string_eq_of_data_eq (a b : String) (h : a.data = b.data) : a = b := by
  cases a
  cases b
  exact congrArg String.mk h

theorem dsName_injective : Function.Injective dsName := by
  intro a b hab
  apply natStr_injective
  have h : ("dataset-" ++ natStr a).data = ("dataset-" ++ natStr b).data :=
    congrArg String.data hab
  simp only [String.data_append] at h
  exact string_eq_of_data_eq _ _ (List.append_cancel_left h)

theorem le_findFresh (ds : List String) :
    ∀ fuel i, i ≤ findFresh ds i fuel := by
  intro fuel
  induction fuel with
  | zero => intro i; simp [findFresh]
  | succ fuel ih =>
    intro i
    rw [findFresh]
    split
    · exact le_trans (Nat.le_succ i) (ih (i + 1))
    · exact le_rfl

theorem findFresh_le (ds : List String) :
    ∀ fuel i, findFresh ds i fuel ≤ i + fuel := by
  intro fuel
  induction fuel with
  | zero => intro i; simp [findFresh]
  | succ fuel ih =>
    intro i
    rw [findFresh]
    split
    · exact le_trans (ih (i + 1)) (by omega)
    · omega

theorem findFresh_skipped (ds : List String) :
    ∀ fuel i j, i ≤ j → j < findFresh ds i fuel → dsName j ∈ ds := by
  intro fuel
  induction fuel with
  | zero =>
    intro i j hij hj
    simp [findFresh] at hj
    omega
  | succ fuel ih =>
    intro i j hij hj
    rw [findFresh] at hj
    by_cases hmem : dsName i ∈ ds
    · rw [if_pos hmem] at hj
      by_cases hji : j = i
      · subst hji; exact hmem
      · exact ih (i + 1) j (by omega) hj
    · rw [if_neg hmem] at hj
      omega

theorem findFresh_fresh (ds : List String) :
    ∀ fuel i, findFresh ds i fuel < i + fuel →
      dsName (findFresh ds i fuel) ∉ ds := by
  intro fuel
  induction fuel with
  | zero =>
    intro i h
    simp [findFresh] at h
  | succ fuel ih =>
    intro i h
    rw [findFresh] at h ⊢
    by_cases hmem : dsName i ∈ ds
    · rw [if_pos hmem] at h ⊢
      exact ih (i + 1) (by omega)
    · rw [if_neg hmem] at h ⊢
      exact hmem

theorem dsName_pigeonhole (ds : List String) (m : Nat)
    (h : ∀ j < m, dsName j ∈ ds) : m ≤ ds.length := by
  have hnd : ((List.range m).map dsName).Nodup :=
    (List.nodup_range m).map dsName_injective
  have hsub : (List.range m).map dsName ⊆ ds := by
    intro x hx
    rcases List.mem_map.mp hx with ⟨j, hj, rfl⟩
    exact h j (List.mem_range.mp hj)
  have hcard : ((List.range m).map dsName).toFinset.card = m := by
    rw [List.toFinset_card_of_nodup hnd]
    simp
  have hle : ((List.range m).map dsName).toFinset.card ≤ ds.toFinset.card := by
    apply Finset.card_le_card
    intro x hx
    rw [List.mem_toFinset] at hx ⊢
    exact hsub hx
  calc m = ((List.range m).map dsName).toFinset.card := hcard.symm
    _ ≤ ds.toFinset.card := hle
    _ ≤ ds.length := ds.toFinset_card_le

theorem freshIndex_le_length (ds : List String) :
    freshIndex ds ≤ ds.length := by
  by_contra h
  push_neg at h
  have hle : freshIndex ds ≤ 0 + (ds.length + 1) := findFresh_le ds _ 0
  have heq : findFresh ds 0 (ds.length + 1) = ds.length + 1 := by
    have h2 : freshIndex ds = findFresh ds 0 (ds.length + 1) := rfl
    omega
  have hall : ∀ j, j < ds.length + 1 → dsName j ∈ ds := by
    intro j hj
    apply findFresh_skipped ds (ds.length + 1) 0 j (Nat.zero_le j)
    omega
  have := dsName_pigeonhole ds (ds.length + 1) hall
  omega

theorem freshIndex_not_mem (ds : List String) :
    dsName (freshIndex ds) ∉ ds := by
  have h : freshIndex ds < 0 + (ds.length + 1) := by
    have := freshIndex_le_length ds
    omega
  exact findFresh_fresh ds (ds.length + 1) 0 h

theorem freshIndex_min (ds : List String) :
    ∀ j < freshIndex ds, dsName j ∈ ds := fun j hj =>
  findFresh_skipped ds (ds.length + 1) 0 j (Nat.zero_le j) hj

theorem poolRun_cons_none (f : α → β) (args : List α) (j : Nat)
    (rest : List Nat) (hj : args[j]? = none) :
    Processing.poolRun f args (j :: rest) = Processing.poolRun f args rest := by
  rw [Processing.poolRun, List.filterMap_cons, hj]
  rfl

theorem poolRun_cons_some (f : α → β) (args : List α) (j : Nat)
    (rest : List Nat) (a : α) (hj : args[j]? = some a) :
    Processing.poolRun f args (j :: rest) =
      (j, f a) :: Processing.poolRun f args rest := by
  rw [Processing.poolRun, List.filterMap_cons, hj]
  rfl

theorem find_poolRun_of_isNone (f : α → β) (args : List α) (i : Nat)
    (hnone : args[i]? = none) :
    ∀ sched : List Nat,
      (Processing.poolRun f args sched).find? (fun p => p.1 == i) = none := by
  intro sched
  induction sched with
  | nil => rfl
  | cons j rest ih =>
    cases hj : args[j]? with
    | none => rw [poolRun_cons_none f args j rest hj]; exact ih
    | some a =>
      have hji : j ≠ i := by
        intro h
        rw [h, hnone] at hj
        exact Option.noConfusion hj
      rw [poolRun_cons_some f args j rest a hj, List.find?_cons_of_neg]
      · exact ih
      · simp [hji]

theorem find_poolRun (f : α → β) (args : List α) (i : Nat) :
    ∀ sched : List Nat, i ∈ sched →
      ((Processing.poolRun f args sched).find?
          (fun p => p.1 == i)).map Prod.snd =
        (args[i]?).map f := by
  intro sched
  induction sched with
  | nil => intro h; exact absurd h (List.not_mem_nil i)
  | cons j rest ih =>
    intro hmem
    cases hj : args[j]? with
    | none =>
      rw [poolRun_cons_none f args j rest hj]
      rcases List.mem_cons.mp hmem with rfl | hrest
      · rw [find_poolRun_of_isNone f args i hj, hj]
        rfl
      · exact ih hrest
    | some a =>
      rw [poolRun_cons_some f args j rest a hj]
      by_cases hji : j = i
      · subst hji
        rw [List.find?_cons_of_pos, hj]
        · rfl
        · simp
      · rw [List.find?_cons_of_neg]
        · rcases List.mem_cons.mp hmem with rfl | hrest
          · exact absurd rfl hji
          · exact ih hrest
        · simp [hji]

theorem range_filterMap_getElem (f : α → β) (args : List α) :
    (List.range args.length).filterMap (fun i => (args[i]?).map f) =
      args.map f := by
  induction args with
  | nil => rfl
  | cons a as ih =>
    rw [List.length_cons, List.range_succ_eq_map, List.filterMap_cons,
      List.filterMap_map]
    have hcomp : ((fun i => (((a :: as)[i]?).map f)) ∘ Nat.succ) =
        (fun i => ((as[i]?).map f)) := by
      funext i
      simp
    rw [hcomp, ih]
    simp

theorem process_map_eq_seq_map (f : α → β) (args : List α)
    (sched : List Nat) (h : sched.Perm (List.range args.length)) :
    Processing.process_map f args sched = Processing.seq_map f args := by
  rw [Processing.process_map, Processing.seq_map, Processing.gather]
  rw [← range_filterMap_getElem f args]
  apply List.filterMap_congr
  intro i hi
  have hmem : i ∈ sched := by
    rw [h.mem_iff]
    exact hi
  rw [find_poolRun f args i sched hmem]

theorem applyConvs_eq_some
    (CONVERSIONS : String → Option (String → String)) :
    ∀ (cs : List String) (p : String),
      (∀ c ∈ cs, (CONVERSIONS c).isSome) →
      Dataset.applyConvs CONVERSIONS p cs =
        some (Dataset.chainConvs CONVERSIONS p cs) := by
  intro cs
  induction cs with
  | nil => intro p _; rfl
  | cons c cs ih =>
    intro p h
    obtain ⟨g, hg⟩ := Option.isSome_iff_exists.mp
      (h c (List.mem_cons_self c cs))
    rw [Dataset.applyConvs, hg]
    have hch : Dataset.chainConvs CONVERSIONS p (c :: cs) =
        Dataset.chainConvs CONVERSIONS (g p) cs := by
      rw [Dataset.chainConvs, Dataset.chainConvs, List.foldl_cons, hg]
      rfl
    rw [hch]
    exact ih (g p) (fun d hd => h d (List.mem_cons_of_mem c hd))

theorem buildRows_eq_some
    (CONVERSIONS : String → Option (String → String)) (dataset : String) :
    ∀ es : List (String × String × List String),
      (∀ e ∈ es, ∀ c ∈ e.2.2, (CONVERSIONS c).isSome) →
      Dataset.buildRows CONVERSIONS dataset es =
        some (es.map (fun e =>
          { file := Dataset.chainConvs CONVERSIONS
              (imgPath dataset e.1) e.2.2,
            cls := e.2.1 })) := by
  intro es
  induction es with
  | nil => intro _; rfl
  | cons e es ih =>
    intro h
    rw [Dataset.buildRows,
      applyConvs_eq_some CONVERSIONS e.2.2 (imgPath dataset e.1)
        (h e (List.mem_cons_self e es)),
      ih (fun d hd => h d (List.mem_cons_of_mem e hd))]
    rfl

theorem new_dataset_true_eq (Image : Type)
    (CONVERSIONS : String → Option (String → String))
    (DEFAULT_CLASS : String) (st : Store) (L : StoreLedger)
    (filenames conversions : List String)
    (hlog : st.log = some L) (hix : L.indexLabel = some "Index") :
    Dataset.new_dataset Image CONVERSIONS DEFAULT_CLASS st
        filenames conversions true =
      match Dataset.buildRows CONVERSIONS (dsDir (freshIndex st.datasets))
          ((L.rows.filter (fun r => decide (r.file ∈ filenames))).map
            (fun r => (r.file, r.cls,
              conversions.filter (fun c => !(r.flags c))))) with
      | none => none
      | some newRows =>
        some (dsDir (freshIndex st.datasets),
          { st with datasets :=
              st.datasets ++ [dsName (freshIndex st.datasets)] },
          { log := some { indexLabel := some "Index", rows := newRows },
            proc := some [{ conversions := conversions, transforms := [],
                            bundled := some none }],
            x := none, y := none }) := by
  rw [Dataset.new_dataset, hlog]
  simp [hix]

theorem new_dataset_false_eq (Image : Type)
    (CONVERSIONS : String → Option (String → String))
    (DEFAULT_CLASS : String) (st : Store)
    (filenames conversions : List String) :
    Dataset.new_dataset Image CONVERSIONS DEFAULT_CLASS st
        filenames conversions false =
      match Dataset.buildRows CONVERSIONS (dsDir (freshIndex st.datasets))
          (filenames.map (fun f => (f, DEFAULT_CLASS, conversions))) with
      | none => none
      | some newRows =>
        some (dsDir (freshIndex st.datasets),
          { st with datasets :=
              st.datasets ++ [dsName (freshIndex st.datasets)] },
          { log := some { indexLabel := some "Index", rows := newRows },
            proc := some [{ conversions := conversions, transforms := [],
                            bundled := some none }],
            x := none, y := none }) := by
  rw [Dataset.new_dataset]
  simp

theorem new_dataset_some_shape (Image : Type)
    (CONVERSIONS : String → Option (String → String))
    (DEFAULT_CLASS : String) (st : Store)
    (filenames conversions : List String) (b : Bool)
    (p : String) (st' : Store) (dir : DatasetDir Image)
    (hcall : Dataset.new_dataset Image CONVERSIONS DEFAULT_CLASS st
        filenames conversions b = some (p, st', dir)) :
    p = dsDir (freshIndex st.datasets) ∧
    dir.proc = some [{ conversions := conversions, transforms := [],
                       bundled := some none }] := by
  rw [Dataset.new_dataset] at hcall
  split at hcall
  · exact Option.noConfusion hcall
  · split at hcall
    · exact Option.noConfusion hcall
    · simp only [Option.some_inj, Prod.mk.injEq] at hcall
      obtain ⟨hp, _, hdir⟩ := hcall
      refine ⟨hp.symm, ?_⟩
      rw [← hdir]

/-! Claim theorems. -/

/-- C1: for every function and every input list of length n,
process_map returns exactly n outputs equal to the single-threaded
sequential map of the function over the inputs in input order,
whatever physical execution order the pool used; packed=True behaves
as the sequential starmap over argument tuples. -/
theorem process_map_refines_sequential_map
    {α β γ δ : Type} (f : α → β) (g : γ → δ → β)
    (args : List α) (pargs : List (γ × δ)) (sched psched : List Nat)
    (h : sched.Perm (List.range args.length))
    (hp : psched.Perm (List.range pargs.length)) :
    Processing.process_map f args sched = Processing.seq_map f args ∧
    (Processing.process_map f args sched).length = args.length ∧
    Processing.process_map_packed g pargs psched =
      pargs.map (Processing.star g) := by
  refine ⟨process_map_eq_seq_map f args sched h, ?_, ?_⟩
  · rw [process_map_eq_seq_map f args sched h]
    simp [Processing.seq_map]
  · rw [Processing.process_map_packed,
      process_map_eq_seq_map (Processing.star g) pargs psched hp]
    rfl

/-- Witness for C1 at a concrete function, input list and schedule. -/
theorem process_map_refines_sequential_map_witness :
    ([2, 0, 1] : List Nat).Perm (List.range ([10, 20, 30] : List Nat).length) ∧
    ([1, 0] : List Nat).Perm
      (List.range ([(2, 3), (4, 5)] : List (Nat × Nat)).length) ∧
    (Processing.process_map (fun n => n + 1) ([10, 20, 30] : List Nat) [2, 0, 1] =
        Processing.seq_map (fun n => n + 1) ([10, 20, 30] : List Nat) ∧
      (Processing.process_map (fun n => n + 1)
          ([10, 20, 30] : List Nat) [2, 0, 1]).length =
        ([10, 20, 30] : List Nat).length ∧
      Processing.process_map_packed (fun a b => a * b)
          ([(2, 3), (4, 5)] : List (Nat × Nat)) [1, 0] =
        ([(2, 3), (4, 5)] : List (Nat × Nat)).map
          (Processing.star (fun a b => a * b))) :=
  ⟨by decide, by decide,
   process_map_refines_sequential_map (fun n => n + 1) (fun a b => a * b)
     [10, 20, 30] [(2, 3), (4, 5)] [2, 0, 1] [1, 0] (by decide) (by decide)⟩

/-- C2: when the dataset ledger log.csv is absent, make_data returns
false with the dataset state unchanged: Y.npy is not created, the
label step is never invoked, and process.json and all other dataset
state are untouched. -/
theorem make_data_absent_ledger {Image : Type}
    (load : String → Option Image)
    (TRANSFORMS : String → Option (Image → Image))
    (CLASSES : String → Int) (ds : DatasetDir Image)
    (transforms : List String) (bundled : Bool)
    (h : ds.log = none) :
    Dataset.make_data load TRANSFORMS CLASSES ds transforms bundled =
      some (ds, false) := by
  rw [Dataset.make_data, Dataset.make_imageset, h]

/-- Witness for C2 on a concrete dataset with no ledger file. -/
theorem make_data_absent_ledger_witness :
    dsNoLogEx.log = none ∧
    Dataset.make_data loadEx transEx clsEx dsNoLogEx ["scale"] true =
      some (dsNoLogEx, false) :=
  ⟨rfl, make_data_absent_ledger loadEx transEx clsEx dsNoLogEx ["scale"] true rfl⟩

/-- C5: _make_labelset resolves the ledger class column through the
vocabulary in row order; with bundled=True every nonzero id is mapped
to 1 and 0 stays 0, with bundled=False the ids are persisted
unchanged. -/
theorem make_labelset_bundles {Image : Type} (CLASSES : String → Int)
    (ds : DatasetDir Image) (L : Ledger) (r : ProcRec)
    (hlog : ds.log = some L) (hproc : ds.proc = some [r]) :
    Dataset.make_labelset CLASSES ds true =
      some ({ ds with proc := some [{ r with bundled := some (some true) }],
                      y := some (L.rows.map (fun q =>
                        if CLASSES q.cls = 0 then 0 else 1)) }, true) ∧
    Dataset.make_labelset CLASSES ds false =
      some ({ ds with proc := some [{ r with bundled := some (some false) }],
                      y := some (L.rows.map (fun q => CLASSES q.cls)) },
        true) := by
  constructor <;> simp [Dataset.make_labelset, hlog, hproc, parseProc]

/-- Witness for C5 realizing the spec's example: ids [0,0,2,3,0] map
to [0,0,1,1,0] bundled and stay [0,0,2,3,0] unbundled. -/
theorem make_labelset_bundles_witness :
    dsLabelEx.log = some ledgerLabelEx ∧
    dsLabelEx.proc = some [{ conversions := [], transforms := [],
                             bundled := some none }] ∧
    (ledgerLabelEx.rows.map (fun q => clsEx q.cls) = [0, 0, 2, 3, 0]) ∧
    (ledgerLabelEx.rows.map (fun q => if clsEx q.cls = 0 then 0 else 1) =
      [0, 0, 1, 1, 0]) ∧
    (Dataset.make_labelset clsEx dsLabelEx true =
      some ({ dsLabelEx with
                proc := some [{ conversions := [], transforms := [],
                                bundled := some (some true) }],
                y := some (ledgerLabelEx.rows.map (fun q =>
                  if clsEx q.cls = 0 then 0 else 1)) }, true) ∧
    Dataset.make_labelset clsEx dsLabelEx false =
      some ({ dsLabelEx with
                proc := some [{ conversions := [], transforms := [],
                                bundled := some (some false) }],
                y := some (ledgerLabelEx.rows.map (fun q => clsEx q.cls)) },
        true)) :=
  ⟨rfl, rfl, by decide, by decide,
   make_labelset_bundles clsEx dsLabelEx ledgerLabelEx
     { conversions := [], transforms := [], bundled := some none } rfl rfl⟩

/-- C8 counterexample: with data/ already present but data/images and
data/datasets absent, init_data_store returns with the subdirectories
still missing, refuting "after return all three exist". -/
theorem init_data_store_counterexample :
    Storage.init_data_store
        { data := true, images := false, datasets := false } =
      { data := true, images := false, datasets := false } ∧
    (Storage.init_data_store
        { data := true, images := false, datasets := false }).images = false :=
  ⟨rfl, rfl⟩

/-- C8 amended: when none of the three directories exist,
init_data_store creates all of them; when the root data/ directory
already exists the call is a no-op; in every case it returns without
raising (FileExistsError is swallowed). -/
theorem init_data_store_amended (fs gs : RootFs)
    (h1 : fs.data = false) (h2 : fs.images = false)
    (h3 : fs.datasets = false) (hg : gs.data = true) :
    Storage.init_data_store fs =
      { data := true, images := true, datasets := true } ∧
    Storage.init_data_store gs = gs := by
  constructor
  · have hfs : fs = { data := false, images := false, datasets := false } := by
      cases fs
      simp_all
    rw [hfs]
    rfl
  · rw [Storage.init_data_store, if_pos hg]

/-- Witness for C8 amended at concrete initial states. -/
theorem init_data_store_amended_witness :
    ((⟨false, false, false⟩ : RootFs).data = false ∧
     (⟨false, false, false⟩ : RootFs).images = false ∧
     (⟨false, false, false⟩ : RootFs).datasets = false ∧
     (⟨true, true, true⟩ : RootFs).data = true) ∧
    (Storage.init_data_store ⟨false, false, false⟩ =
        { data := true, images := true, datasets := true } ∧
      Storage.init_data_store ⟨true, true, true⟩ = ⟨true, true, true⟩) :=
  ⟨⟨rfl, rfl, rfl, rfl⟩,
   init_data_store_amended ⟨false, false, false⟩ ⟨true, true, true⟩
     rfl rfl rfl rfl⟩

/-- C9: after init_label_store writes the store ledger with an unnamed
index column, every new_dataset call with from_store=True raises while
reading data/log.csv with index_col="Index" — even for an empty
filename list it never returns a dataset path. -/
theorem new_dataset_after_init_label_store (Image : Type)
    (CONVERSIONS : String → Option (String → String))
    (DEFAULT_CLASS : String) (convKeys : List String) (st : Store)
    (filenames conversions : List String) :
    Dataset.new_dataset Image CONVERSIONS DEFAULT_CLASS
        (Storage.init_label_store convKeys st) filenames conversions true =
      none := by
  rw [Dataset.new_dataset, Storage.init_label_store]
  simp

/-- C3 (code bug exhibit): on a concrete dataset with valid metadata,
construction.make_imageset returns true but leaves process.json
holding the old record followed by the updated one, after which
get_process raises; dataset._make_imageset on the same state rewrites
the file to exactly the new transform list and get_process succeeds,
returning it. -/
theorem construction_make_imageset_corrupts_metadata :
    Construction.make_imageset loadEx transEx (dsDir 0) dsDirEx ["scale"] =
      some ({ dsDirEx with
                proc := some [{ conversions := ["png"], transforms := [],
                                bundled := some none },
                              { conversions := ["png"], transforms := ["scale"],
                                bundled := some none }],
                x := some [8] }, true) ∧
    Dataset.get_process { dsDirEx with
        proc := some [{ conversions := ["png"], transforms := [],
                        bundled := some none },
                      { conversions := ["png"], transforms := ["scale"],
                        bundled := some none }],
        x := some [8] } = none ∧
    Dataset.make_imageset loadEx transEx dsDirEx ["scale"] =
      some ({ dsDirEx with
                proc := some [{ conversions := ["png"],
                                transforms := ["scale"],
                                bundled := some none }],
                x := some [8] }, true) ∧
    Dataset.get_process { dsDirEx with
        proc := some [{ conversions := ["png"], transforms := ["scale"],
                        bundled := some none }],
        x := some [8] } =
      some { conversions := ["png"], transforms := ["scale"],
             bundled := some none } :=
  ⟨rfl, rfl, rfl, rfl⟩

/-- C6 counterexample: with existing listing ["dataset-1"] (one
dataset directory), new_dataset picks suffix 0, which is not greater
than or equal to the count of existing dataset directories; the
storage constructor indeed names the new directory dataset-0. -/
theorem new_dataset_suffix_counterexample :
    freshIndex ["dataset-1"] = 0 ∧
    ¬(freshIndex ["dataset-1"] ≥ (["dataset-1"] : List String).length) ∧
    (Storage.new_dataset Nat { datasets := ["dataset-1"], log := none }).1 =
      "data/datasets/dataset-0" :=
  ⟨by decide, by decide, by decide⟩

/-- C6 amended: new_dataset creates directory dataset-i where i is the
smallest non-negative suffix not already in use — so i is unused,
every smaller suffix is in use, and i is at most (not necessarily at
least) the number of existing entries; both constructors place the
new directory at that path. -/
theorem new_dataset_fresh_suffix (Image : Type)
    (CONVERSIONS : String → Option (String → String))
    (DEFAULT_CLASS : String) (st : Store) (j : Nat)
    (filenames conversions : List String) (b : Bool)
    (p : String) (st' : Store) (dir : DatasetDir Image)
    (hj : j < freshIndex st.datasets)
    (hcall : Dataset.new_dataset Image CONVERSIONS DEFAULT_CLASS st
        filenames conversions b = some (p, st', dir)) :
    dsName (freshIndex st.datasets) ∉ st.datasets ∧
    freshIndex st.datasets ≤ st.datasets.length ∧
    dsName j ∈ st.datasets ∧
    p = dsDir (freshIndex st.datasets) ∧
    (Storage.new_dataset Image st).1 = dsDir (freshIndex st.datasets) :=
  ⟨freshIndex_not_mem st.datasets, freshIndex_le_length st.datasets,
   freshIndex_min st.datasets j hj,
   (new_dataset_some_shape Image CONVERSIONS DEFAULT_CLASS st
     filenames conversions b p st' dir hcall).1, rfl⟩

/-- Witness for C6 amended: a successful concrete construction over
listing ["dataset-0"], which gets suffix 1. -/
theorem new_dataset_fresh_suffix_witness :
    0 < freshIndex storeEx.datasets ∧
    Dataset.new_dataset Nat convEx "line" storeEx ["a.jpg"] ["png"] true =
      some ("data/datasets/dataset-1",
        { storeEx with datasets := storeEx.datasets ++ ["dataset-1"] },
        { log := some { indexLabel := some "Index",
                        rows := [{ file :=
                                     "data/datasets/dataset-1/images/a.jpg",
                                   cls := "line" }] },
          proc := some [{ conversions := ["png"], transforms := [],
                          bundled := some none }],
          x := none, y := none }) ∧
    (dsName (freshIndex storeEx.datasets) ∉ storeEx.datasets ∧
      freshIndex storeEx.datasets ≤ storeEx.datasets.length ∧
      dsName 0 ∈ storeEx.datasets ∧
      "data/datasets/dataset-1" = dsDir (freshIndex storeEx.datasets) ∧
      (Storage.new_dataset Nat storeEx).1 =
        dsDir (freshIndex storeEx.datasets)) :=
  ⟨by decide, rfl,
   new_dataset_fresh_suffix Nat convEx "line" storeEx 0 ["a.jpg"] ["png"]
     true "data/datasets/dataset-1"
     { storeEx with datasets := storeEx.datasets ++ ["dataset-1"] }
     { log := some { indexLabel := some "Index",
                     rows := [{ file :=
                                  "data/datasets/dataset-1/images/a.jpg",
                                cls := "line" }] },
       proc := some [{ conversions := ["png"], transforms := [],
                       bundled := some none }],
       x := none, y := none }
     (by decide) rfl⟩

/-- C4: with from_store=True, a conversion already flagged true in a
file's store ledger row is never applied to that file — each kept row
applies exactly the requested conversions whose flag is false, in the
order given, each taking the previous step's output path; with
from_store=False every requested conversion is applied to every file
in the given order. -/
theorem new_dataset_applies_remaining_conversions (Image : Type)
    (CONVERSIONS : String → Option (String → String))
    (DEFAULT_CLASS : String) (st : Store) (L : StoreLedger)
    (filenames conversions : List String)
    (r0 : StoreRow) (c0 : String)
    (hconv : ∀ c ∈ conversions, (CONVERSIONS c).isSome)
    (hlog : st.log = some L) (hix : L.indexLabel = some "Index")
    (hflag : r0.flags c0 = true) :
    Dataset.new_dataset Image CONVERSIONS DEFAULT_CLASS st
        filenames conversions true =
      some (dsDir (freshIndex st.datasets),
        { st with datasets :=
            st.datasets ++ [dsName (freshIndex st.datasets)] },
        { log := some (idxLedger (
              (L.rows.filter
                (fun r => decide (r.file ∈ filenames))).map (fun r =>
              { file := Dataset.chainConvs CONVERSIONS
                  (imgPath (dsDir (freshIndex st.datasets)) r.file)
                  (conversions.filter (fun c => !(r.flags c))),
                cls := r.cls }))),
          proc := some [{ conversions := conversions, transforms := [],
                          bundled := some none }],
          x := none, y := none }) ∧
    Dataset.new_dataset Image CONVERSIONS DEFAULT_CLASS st
        filenames conversions false =
      some (dsDir (freshIndex st.datasets),
        { st with datasets :=
            st.datasets ++ [dsName (freshIndex st.datasets)] },
        { log := some (idxLedger (
              filenames.map (fun f =>
              { file := Dataset.chainConvs CONVERSIONS
                  (imgPath (dsDir (freshIndex st.datasets)) f) conversions,
                cls := DEFAULT_CLASS }))),
          proc := some [{ conversions := conversions, transforms := [],
                          bundled := some none }],
          x := none, y := none }) ∧
    c0 ∉ conversions.filter (fun c => !(r0.flags c)) := by
  have hes1 : ∀ e ∈ (L.rows.filter
      (fun r => decide (r.file ∈ filenames))).map
        (fun r => (r.file, r.cls,
          conversions.filter (fun c => !(r.flags c)))),
      ∀ c ∈ e.2.2, (CONVERSIONS c).isSome := by
    intro e he c hc
    rcases List.mem_map.mp he with ⟨r, _, rfl⟩
    exact hconv c (List.mem_of_mem_filter hc)
  have hes2 : ∀ e ∈ filenames.map (fun f => (f, DEFAULT_CLASS, conversions)),
      ∀ c ∈ e.2.2, (CONVERSIONS c).isSome := by
    intro e he c hc
    rcases List.mem_map.mp he with ⟨f, _, rfl⟩
    exact hconv c hc
  refine ⟨?_, ?_, ?_⟩
  · rw [new_dataset_true_eq Image CONVERSIONS DEFAULT_CLASS st L
      filenames conversions hlog hix,
      buildRows_eq_some CONVERSIONS _ _ hes1]
    simp only [List.map_map]
    rfl
  · rw [new_dataset_false_eq Image CONVERSIONS DEFAULT_CLASS st
      filenames conversions,
      buildRows_eq_some CONVERSIONS _ _ hes2]
    simp only [List.map_map]
    rfl
  · simp [List.mem_filter, hflag]

/-- Witness for C4 on the concrete store: the row whose png flag is
already set gets no conversion, the other row gets png applied. -/
theorem new_dataset_applies_remaining_conversions_witness :
    (∀ c ∈ ["png"], ((convEx c).isSome)) ∧
    storeEx.log = some storeLedgerEx ∧
    storeLedgerEx.indexLabel = some "Index" ∧
    ({ file := "a.jpg", cls := "line",
       flags := fun c => c = "png" } : StoreRow).flags "png" = true ∧
    (Dataset.new_dataset Nat convEx "line" storeEx
        ["a.jpg", "b.jpg"] ["png"] true =
      some (dsDir (freshIndex storeEx.datasets),
        { storeEx with datasets :=
            storeEx.datasets ++ [dsName (freshIndex storeEx.datasets)] },
        { log := some (idxLedger (
              (storeLedgerEx.rows.filter
                (fun r => decide (r.file ∈ ["a.jpg", "b.jpg"]))).map (fun r =>
              { file := Dataset.chainConvs convEx
                  (imgPath (dsDir (freshIndex storeEx.datasets)) r.file)
                  (["png"].filter (fun c => !(r.flags c))),
                cls := r.cls }))),
          proc := some [{ conversions := ["png"], transforms := [],
                          bundled := some none }],
          x := none, y := none }) ∧
    Dataset.new_dataset Nat convEx "line" storeEx
        ["a.jpg", "b.jpg"] ["png"] false =
      some (dsDir (freshIndex storeEx.datasets),
        { storeEx with datasets :=
            storeEx.datasets ++ [dsName (freshIndex storeEx.datasets)] },
        { log := some (idxLedger (
              ["a.jpg", "b.jpg"].map (fun f =>
              { file := Dataset.chainConvs convEx
                  (imgPath (dsDir (freshIndex storeEx.datasets)) f) ["png"],
                cls := "line" }))),
          proc := some [{ conversions := ["png"], transforms := [],
                          bundled := some none }],
          x := none, y := none }) ∧
    "png" ∉ ["png"].filter (fun c =>
      !(({ file := "a.jpg", cls := "line",
           flags := fun c2 => c2 = "png" } : StoreRow).flags c))) :=
  ⟨by decide, rfl, rfl, by decide,
   new_dataset_applies_remaining_conversions Nat convEx "line" storeEx
     storeLedgerEx ["a.jpg", "b.jpg"] ["png"]
     { file := "a.jpg", cls := "line", flags := fun c => c = "png" } "png"
     (by decide) rfl rfl (by decide)⟩

/-- C10: with from_store=True a requested filename that is not in the
store ledger's File column is silently omitted: the call still
succeeds, the result equals the one for the filename list without it,
and the rows produced are the membership-filtered store rows in store
ledger order (not argument order), so no row or copy is produced for
the missing name and nothing is raised. -/
theorem new_dataset_skips_absent_filenames (Image : Type)
    (CONVERSIONS : String → Option (String → String))
    (DEFAULT_CLASS : String) (st : Store) (L : StoreLedger)
    (filenames conversions : List String) (g : String)
    (hconv : ∀ c ∈ conversions, (CONVERSIONS c).isSome)
    (hlog : st.log = some L) (hix : L.indexLabel = some "Index")
    (hg : g ∉ L.rows.map StoreRow.file) :
    (Dataset.new_dataset Image CONVERSIONS DEFAULT_CLASS st
        filenames conversions true).isSome ∧
    Dataset.new_dataset Image CONVERSIONS DEFAULT_CLASS st
        filenames conversions true =
      Dataset.new_dataset Image CONVERSIONS DEFAULT_CLASS st
        (filenames.filter (fun f => f ≠ g)) conversions true ∧
    Dataset.new_dataset Image CONVERSIONS DEFAULT_CLASS st
        filenames conversions true =
      some (dsDir (freshIndex st.datasets),
        { st with datasets :=
            st.datasets ++ [dsName (freshIndex st.datasets)] },
        { log := some (idxLedger (
              (L.rows.filter
                (fun r => decide (r.file ∈ filenames))).map (fun r =>
              { file := Dataset.chainConvs CONVERSIONS
                  (imgPath (dsDir (freshIndex st.datasets)) r.file)
                  (conversions.filter (fun c => !(r.flags c))),
                cls := r.cls }))),
          proc := some [{ conversions := conversions, transforms := [],
                          bundled := some none }],
          x := none, y := none }) := by
  have hes1 : ∀ e ∈ (L.rows.filter
      (fun r => decide (r.file ∈ filenames))).map
        (fun r => (r.file, r.cls,
          conversions.filter (fun c => !(r.flags c)))),
      ∀ c ∈ e.2.2, (CONVERSIONS c).isSome := by
    intro e he c hc
    rcases List.mem_map.mp he with ⟨r, _, rfl⟩
    exact hconv c (List.mem_of_mem_filter hc)
  have heq : Dataset.new_dataset Image CONVERSIONS DEFAULT_CLASS st
      filenames conversions true =
    some (dsDir (freshIndex st.datasets),
      { st with datasets :=
          st.datasets ++ [dsName (freshIndex st.datasets)] },
      { log := some (idxLedger (
            (L.rows.filter
              (fun r => decide (r.file ∈ filenames))).map (fun r =>
            { file := Dataset.chainConvs CONVERSIONS
                (imgPath (dsDir (freshIndex st.datasets)) r.file)
                (conversions.filter (fun c => !(r.flags c))),
              cls := r.cls }))),
        proc := some [{ conversions := conversions, transforms := [],
                        bundled := some none }],
        x := none, y := none }) := by
    rw [new_dataset_true_eq Image CONVERSIONS DEFAULT_CLASS st L
      filenames conversions hlog hix,
      buildRows_eq_some CONVERSIONS _ _ hes1]
    simp only [List.map_map]
    rfl
  have hfilt : L.rows.filter
      (fun r => decide (r.file ∈ filenames.filter (fun f => f ≠ g))) =
      L.rows.filter (fun r => decide (r.file ∈ filenames)) := by
    apply List.filter_congr
    intro r hr
    have hne : r.file ≠ g := by
      intro he
      exact hg (he ▸ List.mem_map_of_mem StoreRow.file hr)
    apply decide_eq_decide.mpr
    constructor
    · exact fun hmem => (List.mem_filter.mp hmem).1
    · intro hmem
      exact List.mem_filter.mpr ⟨hmem, by simp [hne]⟩
  have hes1' : ∀ e ∈ (L.rows.filter
      (fun r => decide (r.file ∈ filenames.filter (fun f => f ≠ g)))).map
        (fun r => (r.file, r.cls,
          conversions.filter (fun c => !(r.flags c)))),
      ∀ c ∈ e.2.2, (CONVERSIONS c).isSome := by
    intro e he c hc
    rcases List.mem_map.mp he with ⟨r, _, rfl⟩
    exact hconv c (List.mem_of_mem_filter hc)
  have heq2 : Dataset.new_dataset Image CONVERSIONS DEFAULT_CLASS st
      (filenames.filter (fun f => f ≠ g)) conversions true =
    some (dsDir (freshIndex st.datasets),
      { st with datasets :=
          st.datasets ++ [dsName (freshIndex st.datasets)] },
      { log := some (idxLedger (
            (L.rows.filter
              (fun r => decide (r.file ∈ filenames))).map (fun r =>
            { file := Dataset.chainConvs CONVERSIONS
                (imgPath (dsDir (freshIndex st.datasets)) r.file)
                (conversions.filter (fun c => !(r.flags c))),
              cls := r.cls }))),
        proc := some [{ conversions := conversions, transforms := [],
                        bundled := some none }],
        x := none, y := none }) := by
    rw [new_dataset_true_eq Image CONVERSIONS DEFAULT_CLASS st L
      (filenames.filter (fun f => f ≠ g)) conversions hlog hix,
      buildRows_eq_some CONVERSIONS _ _ hes1', hfilt]
    simp only [List.map_map]
    rfl
  refine ⟨?_, ?_, heq⟩
  · rw [heq]
    rfl
  · rw [heq, heq2]

/-- Witness for C10 with the absent filename zz.jpg requested. -/
theorem new_dataset_skips_absent_filenames_witness :
    (∀ c ∈ ["png"], ((convEx c).isSome)) ∧
    storeEx.log = some storeLedgerEx ∧
    storeLedgerEx.indexLabel = some "Index" ∧
    "zz.jpg" ∉ storeLedgerEx.rows.map StoreRow.file ∧
    ((Dataset.new_dataset Nat convEx "line" storeEx
        ["a.jpg", "zz.jpg"] ["png"] true).isSome ∧
    Dataset.new_dataset Nat convEx "line" storeEx
        ["a.jpg", "zz.jpg"] ["png"] true =
      Dataset.new_dataset Nat convEx "line" storeEx
        (["a.jpg", "zz.jpg"].filter (fun f => f ≠ "zz.jpg")) ["png"] true ∧
    Dataset.new_dataset Nat convEx "line" storeEx
        ["a.jpg", "zz.jpg"] ["png"] true =
      some (dsDir (freshIndex storeEx.datasets),
        { storeEx with datasets :=
            storeEx.datasets ++ [dsName (freshIndex storeEx.datasets)] },
        { log := some (idxLedger (
              (storeLedgerEx.rows.filter
                (fun r => decide (r.file ∈ ["a.jpg", "zz.jpg"]))).map (fun r =>
              { file := Dataset.chainConvs convEx
                  (imgPath (dsDir (freshIndex storeEx.datasets)) r.file)
                  (["png"].filter (fun c => !(r.flags c))),
                cls := r.cls }))),
          proc := some [{ conversions := ["png"], transforms := [],
                          bundled := some none }],
          x := none, y := none })) :=
  ⟨by decide, rfl, rfl, by decide,
   new_dataset_skips_absent_filenames Nat convEx "line" storeEx
     storeLedgerEx ["a.jpg", "zz.jpg"] ["png"] "zz.jpg"
     (by decide) rfl rfl (by decide)⟩

/-- C7 counterexample: a dataset freshly constructed by the storage
new_dataset constructor has a process record whose Bundled key is
absent rather than null. -/
theorem get_process_fresh_counterexample :
    Dataset.get_process
        (Storage.new_dataset Nat { datasets := [], log := none }).2.2 =
      some { conversions := [], transforms := [], bundled := none } ∧
    ({ conversions := [], transforms := [], bundled := none } :
        ProcRec).bundled ≠ some none :=
  ⟨rfl, by decide⟩

/-- C7 amended: get_process on a freshly constructed dataset returns
Transforms = [] in both constructors; the dataset.new_dataset
constructor writes Bundled as null, while the storage.new_dataset
constructor omits the Bundled key entirely. -/
theorem get_process_fresh (Image : Type)
    (CONVERSIONS : String → Option (String → String))
    (DEFAULT_CLASS : String) (st st2 : Store)
    (filenames conversions : List String) (b : Bool)
    (p : String) (st' : Store) (dir : DatasetDir Image)
    (hcall : Dataset.new_dataset Image CONVERSIONS DEFAULT_CLASS st
        filenames conversions b = some (p, st', dir)) :
    Dataset.get_process dir =
      some { conversions := conversions, transforms := [],
             bundled := some none } ∧
    Dataset.get_process (Storage.new_dataset Image st2).2.2 =
      some { conversions := [], transforms := [], bundled := none } := by
  constructor
  · have hproc := (new_dataset_some_shape Image CONVERSIONS DEFAULT_CLASS st
      filenames conversions b p st' dir hcall).2
    rw [Dataset.get_process, hproc]
    rfl
  · rfl

/-- Witness for C7 amended at a concrete successful construction. -/
theorem get_process_fresh_witness :
    Dataset.new_dataset Nat convEx "line" storeEx ["a.jpg"] ["png"] true =
      some ("data/datasets/dataset-1",
        { storeEx with datasets := storeEx.datasets ++ ["dataset-1"] },
        { log := some { indexLabel := some "Index",
                        rows := [{ file :=
                                     "data/datasets/dataset-1/images/a.jpg",
                                   cls := "line" }] },
          proc := some [{ conversions := ["png"], transforms := [],
                          bundled := some none }],
          x := none, y := none }) ∧
    (Dataset.get_process
        ({ log := some { indexLabel := some "Index",
                         rows := [{ file :=
                                      "data/datasets/dataset-1/images/a.jpg",
                                    cls := "line" }] },
           proc := some [{ conversions := ["png"], transforms := [],
                           bundled := some none }],
           x := none, y := none } : DatasetDir Nat) =
        some { conversions := ["png"], transforms := [],
               bundled := some none } ∧
      Dataset.get_process
          (Storage.new_dataset Nat { datasets := [], log := none }).2.2 =
        some { conversions := [], transforms := [], bundled := none }) :=
  ⟨rfl,
   get_process_fresh Nat convEx "line" storeEx { datasets := [], log := none }
     ["a.jpg"] ["png"] true "data/datasets/dataset-1"
     { storeEx with datasets := storeEx.datasets ++ ["dataset-1"] }
     { log := some { indexLabel := some "Index",
                     rows := [{ file :=
                                  "data/datasets/dataset-1/images/a.jpg",
                                cls := "line" }] },
       proc := some [{ conversions := ["png"], transforms := [],
                       bundled := some none }],
       x := none, y := none }
     rfl⟩

end Chart
